import Mathlib

/-!
Shallow embedding of `src/crawler.ts` from the `unity-activate` repository: an
abstract `Crawler` base class wrapping puppeteer-core.  Pure data flow is
modelled directly; interactions with the page object, the file system and
timers are modelled by explicit environments recording what the external world
does, and each method of the class is translated into a Lean function over
those environments.
-/

namespace Crawler

/-- One observable call made on the underlying puppeteer `page` object by one
of the pass-through methods of the class. -/
inductive Action where
  | pageGoto (url : String)
  | pageWaitForNavigation (waitUntil : String)
  | pageClick (selector : String)
  | pageType (selector : String) (text : String)
  | pageWaitForSelector (selector : String) (timeoutMs : Nat)
  | pageWaitForTimeout (ms : Nat)
  | pageEvaluateClick (selector : String)
  deriving DecidableEq

/-- Trace of `waitForTimeout(milliseconds)`: it delegates directly to
`page.waitForTimeout(milliseconds)` with no other page interaction. -/
def waitForTimeout (milliseconds : Nat) : List Action :=
  [Action.pageWaitForTimeout milliseconds]

/-- Trace of `goto(url)`: it awaits `page.goto(url)` together with
`page.waitForNavigation({ waitUntil: 'domcontentloaded' })`; the two promises
are created in this order inside `Promise.all`. -/
def goto (url : String) : List Action :=
  [Action.pageGoto url, Action.pageWaitForNavigation "domcontentloaded"]

/-- Trace of `click(selector)`: first `this.waitForTimeout(1000)` (which calls
`page.waitForTimeout(1000)`), then `page.click(selector)` together with
`page.waitForNavigation({ waitUntil: 'load' })`. -/
def click (selector : String) : List Action :=
  waitForTimeout 1000 ++ [Action.pageClick selector, Action.pageWaitForNavigation "load"]

/-- Trace of `type(selector, text)`: first `this.waitForTimeout(1000)`, then
`page.type(selector, text)`. -/
def type (selector : String) (text : String) : List Action :=
  waitForTimeout 1000 ++ [Action.pageType selector text]

/-- Trace of `exists(selector)`: first `this.waitForTimeout(1000)`, then
`page.waitForSelector(selector, { timeout: 5000 })` inside a try/catch. -/
def existsTrace (selector : String) : List Action :=
  waitForTimeout 1000 ++ [Action.pageWaitForSelector selector 5000]

/-- Trace of `waitForSelector(selector)`: it delegates directly to
`page.waitForSelector(selector, { timeout: 5000 })`. -/
def waitForSelector (selector : String) : List Action :=
  [Action.pageWaitForSelector selector 5000]

/-- Trace of `waitAndClick(selector)`: `page.waitForSelector(selector,
{ timeout: 5000 })`, then a `page.evaluate` that clicks the element. -/
def waitAndClick (selector : String) : List Action :=
  [Action.pageWaitForSelector selector 5000, Action.pageEvaluateClick selector]

/-- Behaviour of the underlying `page.waitForSelector(selector, timeout)`
call: it either resolves (`Except.ok`) with an element handle, abstracted to
`Unit`, or rejects (`Except.error`) with an error message, e.g. on timeout. -/
def PageEnv : Type := String → Nat → Except String Unit

/-- Semantics of `exists(selector)`: after the 1000 ms pre-delay the method
wraps `page.waitForSelector(selector, { timeout: 5000 })` in try/catch and
returns `true` when the call resolves and `false` when it rejects.  The method
itself is `async`, so its result is an `Except`; the try/catch around the only
failing call means it always ends in `Except.ok`. -/
def existsCheck (env : PageEnv) (selector : String) : Except String Bool :=
  match env selector 5000 with
  | Except.ok _ => Except.ok true
  | Except.error _ => Except.ok false

/-- The object fields of the `Crawler` class (the `page` handle is kept out of
the state: interactions with it are modelled by environments). -/
structure CrawlerState where
  headless : Bool
  tmpDir : String
  downloadDir : String
  hasError : Bool
  errorDump : String
  deriving DecidableEq

/-- The constructor: `Object.assign(this, { headless, downloadDir })` stores
the two arguments; `errorDump` is `"error.html"` when `debug` is set and `""`
otherwise; `tmpDir` and `hasError` keep their field initializers. -/
def mkCrawler (debug : Bool) (headless : Bool) (downloadDir : String) : CrawlerState :=
  { headless := headless,
    tmpDir := "",
    downloadDir := downloadDir,
    hasError := false,
    errorDump := if debug then "error.html" else "" }

/-- Models `path.resolve(__dirname, 'temp')`, the staging-directory path
assigned to `this.tmpDir` by `run`; the `__dirname` anchor is abstracted to a
literal. -/
def tmpDirPath : String := "__dirname/temp"

/-- Environment for one execution of `run`: whether `fs.mkdirSync(this.tmpDir)`
succeeds, whether creating the CDP session and sending
`Page.setDownloadBehavior` succeed, the effect of the subclass `crawl()` call
on the object fields, the outcome of that call, and the markup
`page.content()` would return at the moment of a failure. -/
structure RunEnv where
  mkdirOk : Bool
  cdpOk : Bool
  crawlEffect : CrawlerState → CrawlerState
  crawlResult : Except String Unit
  pageContent : String

/-- Observable outcome of one execution of `run`: the headless flag passed to
`puppeteer.launch`, whether `browser.close()` ran before `run` finished, the
debug dump written on failure (destination path and content), the returned or
thrown result, and the object fields afterwards. -/
structure RunOutcome where
  launchedHeadless : Bool
  browserClosed : Bool
  dumpWritten : Option (String × String)
  result : Except String Unit
  finalState : CrawlerState

/-- The object state right after the setup steps of `run` (`this.tmpDir` is
assigned the staging path) followed by the subclass `crawl()` call, whose
effect on the fields is the environment's `crawlEffect`. -/
def postCrawlState (st : CrawlerState) (env : RunEnv) : CrawlerState :=
  env.crawlEffect { st with tmpDir := tmpDirPath }

/-- `run()`: launches the browser with `headless: this.headless`, assigns
`this.tmpDir`, creates the staging directory, opens the CDP session, and only
then enters the try/catch/finally that wraps `this.crawl()`.  The
`browser.close()` sits in the `finally`, so it runs exactly when control
reaches the `try` block; an error thrown by `fs.mkdirSync` or by the CDP setup
propagates before the `try` block and the browser is not closed.  On a crawl
error the catch writes `page.content()` to `this.errorDump` when that field is
truthy (non-empty) and rethrows. -/
def run (st : CrawlerState) (env : RunEnv) : RunOutcome :=
  if env.mkdirOk then
    if env.cdpOk then
      let st2 := postCrawlState st env
      match env.crawlResult with
      | Except.ok _ =>
          { launchedHeadless := st.headless,
            browserClosed := true,
            dumpWritten := none,
            result := Except.ok (),
            finalState := st2 }
      | Except.error e =>
          { launchedHeadless := st.headless,
            browserClosed := true,
            dumpWritten :=
              if st2.errorDump = "" then none
              else some (st2.errorDump, env.pageContent),
            result := Except.error e,
            finalState := st2 }
    else
      { launchedHeadless := st.headless,
        browserClosed := false,
        dumpWritten := none,
        result := Except.error "createCDPSession failed",
        finalState := { st with tmpDir := tmpDirPath } }
  else
    { launchedHeadless := st.headless,
      browserClosed := false,
      dumpWritten := none,
      result := Except.error "mkdirSync failed",
      finalState := { st with tmpDir := tmpDirPath } }

/-- Default `timeout` argument of `readUserInput`: `5 * 60 * 1000` ms. -/
def readUserInputDefaultTimeout : Int := 5 * 60 * 1000

/-- `readUserInput(question, password, timeout)` races two resolve calls on a
single promise: a `setTimeout` armed for `timeout` ms that resolves `""`, and
the readline answer callback that resolves the typed answer when the user
answers at time `answerTime` (`none` when no answer ever arrives).  A JS
promise keeps the value of the first resolve call and ignores later ones; with
an equal deadline the `setTimeout` callback was registered first and runs
first, so a tie goes to the timeout. -/
def readUserInput (timeout : Int) (answerTime : Option Int) (answer : String) : String :=
  match answerTime with
  | none => ""
  | some t => if t < timeout then answer else ""

/-- JS truthiness test `!downloadFile` for the optional first directory entry
returned by `fs.readdirSync(dir)[0]`: `undefined` and the empty string are
falsy. -/
def jsFalsy : Option String → Bool
  | none => true
  | some s => s == ""

/-- The JS test `name.endsWith('.crdownload')`, modelled as a suffix test on
the character sequence of the file name. -/
def isCrdownloadName (s : String) : Bool :=
  ".crdownload".data.isSuffixOf s.data

/-- `downloadFile.endsWith('.crdownload')` lifted to the optional first entry;
in the source the short-circuit `!downloadFile || ...` guarantees the method is
only invoked on a present entry, so the value at `none` is never reached. -/
def endsWithCrdownload : Option String → Bool
  | none => false
  | some s => isCrdownloadName s

/-- The do/while poll loop of `waitForDownload`: each iteration sleeps 100 ms,
adds 100 to `elapsed`, reads `fs.readdirSync(this.tmpDir)[0]` (the listing at
poll number `i` is `listing i`), and repeats while
`elapsed < timeout && (!downloadFile || downloadFile.endsWith('.crdownload'))`.
Returns the entry the loop stopped on together with the number of iterations
performed (each iteration is one 100 ms sleep followed by one directory
read). -/
def pollLoop (listing : Nat → List String) (timeout : Int) (elapsed : Int) (i : Nat) :
    Option String × Nat :=
  if h : elapsed + 100 < timeout ∧
      (jsFalsy ((listing i).head?) || endsWithCrdownload ((listing i).head?)) = true then
    let r := pollLoop listing timeout (elapsed + 100) (i + 1)
    (r.1, r.2 + 1)
  else
    ((listing i).head?, 1)
termination_by (timeout - elapsed).toNat
decreasing_by
  simp_wf
  omega

/-- Relevant state of the file system around the destination directory when
`waitForDownload` exits its loop: whether `fs.existsSync(this.downloadDir)`
holds and whether `fs.statSync(this.downloadDir).isDirectory()` holds. -/
structure DownloadFS where
  downloadDirExists : Bool
  downloadDirIsDir : Bool
  deriving DecidableEq

/-- Observable outcome of `waitForDownload`: whether
`fs.mkdirSync(this.downloadDir, { recursive: true })` was performed, the
source/destination pair of the `fs.copyFileSync` call when one happened, and
the returned value (`none` models `undefined`). -/
structure DownloadOutcome where
  madeDirRecursive : Bool
  copied : Option (String × String)
  result : Option String
  deriving DecidableEq

/-- Models `path.resolve(dir, file)` for a plain (non-absolute) file name
taken from a directory listing: the name is appended to the resolved
directory. -/
def pathResolve (dir : String) (file : String) : String := dir ++ "/" ++ file

/-- `waitForDownload(timeout)`: runs the poll loop, then
`if (!downloadFile) return undefined`; otherwise it creates the destination
directory recursively when it is absent or not a directory, copies the file
from the staging directory to `path.resolve(this.downloadDir, downloadFile)`
and returns that path.  `tmpDir` and `downloadDir` stand for the object fields
of the same names. -/
def waitForDownload (listing : Nat → List String) (tmpDir : String) (downloadDir : String)
    (fsEnv : DownloadFS) (timeout : Int) : DownloadOutcome :=
  let downloadFile := (pollLoop listing timeout 0 0).1
  if jsFalsy downloadFile then
    { madeDirRecursive := false, copied := none, result := none }
  else
    let f := downloadFile.getD ""
    let downloadPath := pathResolve downloadDir f
    { madeDirRecursive := !fsEnv.downloadDirExists || !fsEnv.downloadDirIsDir,
      copied := some (pathResolve tmpDir f, downloadPath),
      result := some downloadPath }

/-- Default `timeout` argument of `waitForDownload`: 5000 ms. -/
def waitForDownloadDefaultTimeout : Int := 5000

/-- When the do/while condition fails on the entry read in the current
iteration, the loop stops and returns that entry after this single
iteration. -/
theorem pollLoop_stop (listing : Nat → List String) (timeout : Int) (elapsed : Int) (i : Nat)
    (h : ¬ (elapsed + 100 < timeout ∧
      (jsFalsy ((listing i).head?) || endsWithCrdownload ((listing i).head?)) = true)) :
    pollLoop listing timeout elapsed i = ((listing i).head?, 1) := by
  unfold pollLoop
  rw [dif_neg h]

/-- With a directory listing that never changes, the entry the poll loop stops
on is always the first entry of that listing: no iteration ever looks past
index `[0]`. -/
theorem pollLoop_fst_const (l : List String) (timeout : Int) (elapsed : Int) (i : Nat) :
    (pollLoop (fun _ => l) timeout elapsed i).1 = l.head? := by
  unfold pollLoop
  split
  · next h =>
      have h1 : elapsed + 100 < timeout := h.1
      simpa using pollLoop_fst_const l timeout (elapsed + 100) (i + 1)
  · rfl
termination_by (timeout - elapsed).toNat
decreasing_by
  simp_wf
  omega

/-- The poll loop always performs at least one iteration (one 100 ms sleep and
one directory read), whatever the timeout. -/
theorem pollLoop_at_least_one (listing : Nat → List String) (timeout : Int) :
    1 ≤ (pollLoop listing timeout 0 0).2 := by
  unfold pollLoop
  split
  · simp
  · simp

/-- C1: at the failing input the claim is violated.  The staging directory
holds exactly the partial file `a.crdownload` at every poll and the timeout is
100 ms, so the loop exits on the timeout with the partial file as its entry;
the exit check `if (!downloadFile)` only tests presence, not the
`.crdownload` suffix, so `waitForDownload` copies the partial file into the
destination directory and returns its destination path instead of returning
`undefined` and never touching the partial file. -/
theorem c1_partial_copied_and_returned_at_timeout :
    waitForDownload (fun _ => ["a.crdownload"]) "__dirname/temp" "downloads"
        { downloadDirExists := true, downloadDirIsDir := true } 100 =
      { madeDirRecursive := false,
        copied := some ("__dirname/temp/a.crdownload", "downloads/a.crdownload"),
        result := some "downloads/a.crdownload" } := by
  have hstop := pollLoop_stop (fun _ => ["a.crdownload"]) 100 0 0
    (by intro h; exact absurd h.1 (by decide))
  unfold waitForDownload
  rw [hstop]
  rfl

/-- C2 counterexample: `goto` performs no fixed 1-second delay before
delegating; its first page interaction is already `page.goto(url)`. -/
theorem c2_goto_no_predelay :
    (goto "https://id.unity.com").head? ≠ some (Action.pageWaitForTimeout 1000) := by
  decide

/-- C2 amended: only `click`, `type` and `exists` perform the fixed 1-second
pre-delay before delegating to the page object; `goto`, `waitForSelector`,
`waitAndClick` and `waitForTimeout` delegate directly with no pre-delay. -/
theorem c2_predelay_only_click_type_exists :
    (∀ s : String, (click s).head? = some (Action.pageWaitForTimeout 1000)) ∧
    (∀ s t : String, (type s t).head? = some (Action.pageWaitForTimeout 1000)) ∧
    (∀ s : String, (existsTrace s).head? = some (Action.pageWaitForTimeout 1000)) ∧
    (∀ u : String, goto u = [Action.pageGoto u, Action.pageWaitForNavigation "domcontentloaded"]) ∧
    (∀ s : String, waitForSelector s = [Action.pageWaitForSelector s 5000]) ∧
    (∀ s : String, waitAndClick s = [Action.pageWaitForSelector s 5000,
        Action.pageEvaluateClick s]) ∧
    (∀ m : Nat, waitForTimeout m = [Action.pageWaitForTimeout m]) :=
  ⟨fun _ => rfl, fun _ _ => rfl, fun _ => rfl, fun _ => rfl,
   fun _ => rfl, fun _ => rfl, fun _ => rfl⟩

/-- C3: for every selector, `exists` returns `true` when the underlying
`page.waitForSelector` call (with its internal 5000 ms timeout) resolves,
returns `false` when that call rejects, and in all cases ends in `Except.ok`:
the method itself never raises. -/
theorem c3_exists_boolean_never_raises :
    ∀ (env : PageEnv) (selector : String),
      (∀ u, env selector 5000 = Except.ok u → existsCheck env selector = Except.ok true) ∧
      (∀ e, env selector 5000 = Except.error e → existsCheck env selector = Except.ok false) ∧
      (∃ b, existsCheck env selector = Except.ok b) := by
  intro env s
  refine ⟨fun u hu => ?_, fun e he => ?_, ?_⟩
  · unfold existsCheck
    rw [hu]
  · unfold existsCheck
    rw [he]
  · unfold existsCheck
    cases env s 5000 with
    | ok u => exact ⟨true, rfl⟩
    | error e => exact ⟨false, rfl⟩

/-- C3 witness: with a page on which the selector is found, `exists` returns
`Except.ok true`. -/
theorem c3_witness :
    existsCheck (fun _ _ => Except.ok ()) "#login" = Except.ok true :=
  (c3_exists_boolean_never_raises (fun _ _ => Except.ok ()) "#login").1 () rfl

/-- C4: whenever the setup steps succeed, the crawl step throws, and the dump
path configured at the moment of failure is non-empty, `run` writes the page
markup captured at that moment to the dump path and rethrows the original
error. -/
theorem c4_dump_and_rethrow :
    ∀ (st : CrawlerState) (env : RunEnv) (e : String),
      env.mkdirOk = true → env.cdpOk = true → env.crawlResult = Except.error e →
      (postCrawlState st env).errorDump ≠ "" →
      (run st env).dumpWritten = some ((postCrawlState st env).errorDump, env.pageContent) ∧
      (run st env).result = Except.error e := by
  intro st env e h1 h2 h3 h4
  unfold run
  rw [h1, h2, h3]
  simp [h4]

/-- C4 witness: a debug-configured crawler whose crawl step throws writes the
captured markup to `error.html` and rethrows the error. -/
theorem c4_witness :
    (run (mkCrawler true false "downloads")
        { mkdirOk := true, cdpOk := true, crawlEffect := fun s => s,
          crawlResult := Except.error "crawl failed",
          pageContent := "<html></html>" }).dumpWritten
      = some ("error.html", "<html></html>") ∧
    (run (mkCrawler true false "downloads")
        { mkdirOk := true, cdpOk := true, crawlEffect := fun s => s,
          crawlResult := Except.error "crawl failed",
          pageContent := "<html></html>" }).result
      = Except.error "crawl failed" :=
  c4_dump_and_rethrow (mkCrawler true false "downloads")
    { mkdirOk := true, cdpOk := true, crawlEffect := fun s => s,
      crawlResult := Except.error "crawl failed", pageContent := "<html></html>" }
    "crawl failed" rfl rfl rfl (by decide)

/-- C5 counterexample: when `fs.mkdirSync(this.tmpDir)` throws (for instance
because the staging directory is left over from a previous run), the error
propagates before the try/finally is entered, and the browser is not
closed. -/
theorem c5_mkdir_failure_leaks_browser :
    (run (mkCrawler false false "downloads")
        { mkdirOk := false, cdpOk := true, crawlEffect := fun s => s,
          crawlResult := Except.ok (), pageContent := "" }).browserClosed = false ∧
    (run (mkCrawler false false "downloads")
        { mkdirOk := false, cdpOk := true, crawlEffect := fun s => s,
          crawlResult := Except.ok (), pageContent := "" }).result
      = Except.error "mkdirSync failed" :=
  ⟨rfl, rfl⟩

/-- C5 amended: the browser is closed exactly when both setup steps between
the launch and the `try` block (creating the staging directory, opening the
CDP session) succeed; in that case it is closed whether the crawl step returns
or throws, while a setup failure propagates without closing the browser. -/
theorem c5_browser_closed_iff_setup_succeeds :
    ∀ (st : CrawlerState) (env : RunEnv),
      (run st env).browserClosed = (env.mkdirOk && env.cdpOk) := by
  intro st env
  cases h1 : env.mkdirOk <;> cases h2 : env.cdpOk <;>
    cases h3 : env.crawlResult <;> simp [run, h1, h2, h3]

/-- C6: the result of `readUserInput` is decided by whichever of the two
resolve calls runs first: an answer arriving strictly before the timeout
deadline resolves the promise with exactly that answer, while the timeout
firing first (the user answering no earlier than the deadline, or never)
resolves it with the empty string; the default timeout is `5 * 60 * 1000`
ms. -/
theorem c6_readUserInput_race :
    readUserInputDefaultTimeout = 300000 ∧
    (∀ (timeout t : Int) (answer : String),
        t < timeout → readUserInput timeout (some t) answer = answer) ∧
    (∀ (timeout t : Int) (answer : String),
        timeout ≤ t → readUserInput timeout (some t) answer = "") ∧
    (∀ (timeout : Int) (answer : String), readUserInput timeout none answer = "") := by
  refine ⟨rfl, fun timeout t answer h => ?_, fun timeout t answer h => ?_,
    fun timeout answer => rfl⟩
  · show (if t < timeout then answer else "") = answer
    rw [if_pos h]
  · show (if t < timeout then answer else "") = ""
    rw [if_neg (not_lt.mpr h)]

/-- C6 witness: an answer typed 5 seconds in resolves with the answer; an
answer arriving exactly at the 5-minute deadline loses the race and the
promise resolves with the empty string. -/
theorem c6_witness :
    readUserInput 300000 (some 5000) "my password" = "my password" ∧
    readUserInput 300000 (some 300000) "my password" = "" :=
  ⟨c6_readUserInput_race.2.1 300000 5000 "my password" (by decide),
   c6_readUserInput_race.2.2.1 300000 300000 "my password" (by decide)⟩

/-- C7: whenever the poll loop stops on a completed download (a present,
non-partial first entry), `waitForDownload` performs the recursive
`mkdirSync` exactly when the destination directory is absent or not a
directory, copies the file from the staging directory into the destination
directory under the same name, and returns the destination path. -/
theorem c7_completed_download_copied :
    ∀ (f : String) (rest : List String) (tmpDir downloadDir : String)
      (fsEnv : DownloadFS) (timeout : Int),
      f ≠ "" → isCrdownloadName f = false →
      waitForDownload (fun _ => f :: rest) tmpDir downloadDir fsEnv timeout =
        { madeDirRecursive := !fsEnv.downloadDirExists || !fsEnv.downloadDirIsDir,
          copied := some (pathResolve tmpDir f, pathResolve downloadDir f),
          result := some (pathResolve downloadDir f) } := by
  intro f rest tmp dl fsEnv t hne hcr
  have hstop := pollLoop_stop (fun _ => f :: rest) t 0 0
    (by simp [jsFalsy, endsWithCrdownload, hcr, hne])
  unfold waitForDownload
  rw [hstop]
  simp [jsFalsy, hne]

/-- C7 witness: a completed file in the staging directory is copied into an
absent destination directory (created recursively) and its destination path is
returned. -/
theorem c7_witness :
    waitForDownload (fun _ => ["UnitySetup.exe"]) "__dirname/temp" "downloads"
        { downloadDirExists := false, downloadDirIsDir := false } 5000 =
      { madeDirRecursive := true,
        copied := some ("__dirname/temp/UnitySetup.exe", "downloads/UnitySetup.exe"),
        result := some "downloads/UnitySetup.exe" } :=
  c7_completed_download_copied "UnitySetup.exe" [] "__dirname/temp" "downloads"
    { downloadDirExists := false, downloadDirIsDir := false } 5000
    (by decide) (by decide)

/-- C8: the constructor stores the `headless` argument unchanged, and `run`
passes exactly that boolean as the `headless` launch flag of the browser, for
both values and whatever the rest of the execution does. -/
theorem c8_headless_unchanged :
    ∀ (debugArg headless : Bool) (downloadDir : String) (env : RunEnv),
      (mkCrawler debugArg headless downloadDir).headless = headless ∧
      (run (mkCrawler debugArg headless downloadDir) env).launchedHeadless = headless := by
  intro debugArg headless dl env
  refine ⟨rfl, ?_⟩
  cases h1 : env.mkdirOk <;> cases h2 : env.cdpOk <;> cases h3 : env.crawlResult <;>
    simp [run, mkCrawler, h1, h2, h3]

/-- C9 counterexample: a crawl step that throws while leaving the fields
untouched still ends the run with `hasError = false`, contradicting the claim
that the flag is `true` after a crawl error. -/
theorem c9_hasError_stays_false :
    (run (mkCrawler true true "downloads")
        { mkdirOk := true, cdpOk := true, crawlEffect := fun s => s,
          crawlResult := Except.error "crawl failed", pageContent := "" }).finalState.hasError
      = false := rfl

/-- C9 amended: the constructor initializes `hasError` to `false` and `run`
never assigns it; after any run whose crawl step does not itself modify the
fields, `hasError` still holds its initial value, whether or not the crawl
step raised an error. -/
theorem c9_run_never_sets_hasError :
    (∀ (debugArg headless : Bool) (downloadDir : String),
        (mkCrawler debugArg headless downloadDir).hasError = false) ∧
    (∀ (st : CrawlerState) (env : RunEnv),
        env.crawlEffect = (fun s => s) →
        (run st env).finalState.hasError = st.hasError) := by
  constructor
  · intro _ _ _
    rfl
  · intro st env hid
    cases h1 : env.mkdirOk <;> cases h2 : env.cdpOk <;> cases h3 : env.crawlResult <;>
      simp [run, postCrawlState, h1, h2, h3, hid]

/-- C9 witness: an error-raising crawl that leaves the fields untouched
preserves the initial `hasError = false`. -/
theorem c9_witness :
    (run { headless := false, tmpDir := "", downloadDir := "downloads",
           hasError := false, errorDump := "" }
        { mkdirOk := true, cdpOk := true, crawlEffect := fun s => s,
          crawlResult := Except.error "crash", pageContent := "" }).finalState.hasError
      = ({ headless := false, tmpDir := "", downloadDir := "downloads",
           hasError := false, errorDump := "" } : CrawlerState).hasError :=
  c9_run_never_sets_hasError.2
    { headless := false, tmpDir := "", downloadDir := "downloads",
      hasError := false, errorDump := "" }
    { mkdirOk := true, cdpOk := true, crawlEffect := fun s => s,
      crawlResult := Except.error "crash", pageContent := "" } rfl

/-- C10: the poll loop of `waitForDownload` only ever inspects entry `[0]` of
the directory listing, so whenever a partial-download file sorts first ahead
of a completed file (and the listing stays that way), the completed file is
never detected: the call returns the first entry's destination path, never the
completed file's; and every call performs at least one 100 ms poll interval
before its first check, whatever the timeout (including zero and negative
values). -/
theorem c10_first_entry_and_min_one_poll :
    (∀ (p c : String) (rest : List String) (tmpDir downloadDir : String)
        (fsEnv : DownloadFS) (timeout : Int),
        isCrdownloadName p = true → p ≠ "" →
        (waitForDownload (fun _ => p :: c :: rest) tmpDir downloadDir fsEnv timeout).result
          = some (pathResolve downloadDir p)) ∧
    (∀ (listing : Nat → List String) (timeout : Int),
        1 ≤ (pollLoop listing timeout 0 0).2) := by
  constructor
  · intro p c rest tmp dl fsEnv t hcr hne
    have hfst := pollLoop_fst_const (p :: c :: rest) t 0 0
    unfold waitForDownload
    rw [hfst]
    simp [jsFalsy, hne]
  · intro listing t
    exact pollLoop_at_least_one listing t

/-- C10 witness: with `setup.exe.crdownload` sorting ahead of the completed
`setup.exe`, the returned path is the partial file's, and a loop over an empty
listing still performs a poll. -/
theorem c10_witness :
    (waitForDownload (fun _ => ["setup.exe.crdownload", "setup.exe"]) "__dirname/temp"
        "downloads" { downloadDirExists := true, downloadDirIsDir := true } 5000).result
      = some (pathResolve "downloads" "setup.exe.crdownload") ∧
    1 ≤ (pollLoop (fun _ => []) 5000 0 0).2 :=
  ⟨c10_first_entry_and_min_one_poll.1 "setup.exe.crdownload" "setup.exe" [] "__dirname/temp"
      "downloads" { downloadDirExists := true, downloadDirIsDir := true } 5000
      (by decide) (by decide),
   c10_first_entry_and_min_one_poll.2 (fun _ => []) 5000⟩

end Crawler
